import Mathlib

/-!
Verification of the orchestration core of the Leffa demo application
(`app.py`).  The core function `leffa_predict` validates the task
selector, decodes the two input images, normalizes them to a fixed
768×1024 canvas, computes a region mask and a dense-surface map
depending on the task, assembles an inference request and forwards it
to the generation backend.  The external predictors (mask predictor,
densepose predictor, generation backends, batch transform) are opaque
collaborators and are modelled as abstract function fields of a
`Backends` record.  Every invocation of a collaborator is recorded in
an event trace so that ordering and "never invoked" properties can be
stated.
-/

set_option autoImplicit false

namespace Leffa

/-- A decoded raster image: `pixels` is a list of `height` rows, each a
list of `width` pixels, each a list of `channels` sample values.  This
plays the role both of a `PIL.Image` and of the `numpy` array obtained
from it (`np.array` / `Image.fromarray` are the identity in this
model). -/
structure Img where
  width : Nat
  height : Nat
  channels : Nat
  pixels : List (List (List Nat))
  deriving DecidableEq, Repr

/-- Well-formedness: the pixel grid really has the advertised
dimensions. -/
def Img.WF (im : Img) : Prop :=
  im.pixels.length = im.height ∧
    ∀ row ∈ im.pixels, row.length = im.width ∧
      ∀ px ∈ row, px.length = im.channels

instance (im : Img) : Decidable im.WF := by
  unfold Img.WF; infer_instance

/-- Build an image of the given dimensions from a pixel function
(`f x y k` is sample `k` of the pixel at column `x`, row `y`). -/
def mkImg (w h c : Nat) (f : Nat → Nat → Nat → Nat) : Img :=
  ⟨w, h, c,
    (List.range h).map fun y =>
      (List.range w).map fun x =>
        (List.range c).map fun k => f x y k⟩

/-- Sample `k` of the pixel at column `x`, row `y` (0 outside the
grid). -/
def Img.px (im : Img) (x y k : Nat) : Nat :=
  (((im.pixels.getD y []).getD x []).getD k 0)

/-- Modelled from the spec: `resize_and_center` (Image Normalizer,
defined in `utils/utils.py`, which is not part of the sources at hand).
Per spec §4.1: compute the scale factor that fits the image inside the
target box without exceeding either dimension (preserving aspect
ratio), resize with that scale, and paste the result centered onto a
blank neutral-fill canvas of exactly the target size.  The resize is
modelled as nearest-neighbour sampling; the channel count of the input
is preserved. -/
def resize_and_center (im : Img) (target_width target_height : Nat) : Img :=
  let w := im.width
  let h := im.height
  let fit : Nat × Nat :=
    if target_width * h ≤ target_height * w then
      (target_width, if w = 0 then 0 else h * target_width / w)
    else
      (if h = 0 then 0 else w * target_height / h, target_height)
  let nw := fit.1
  let nh := fit.2
  let ox := (target_width - nw) / 2
  let oy := (target_height - nh) / 2
  mkImg target_width target_height im.channels fun x y k =>
    if ox ≤ x ∧ x < ox + nw ∧ oy ≤ y ∧ y < oy + nh then
      im.px ((x - ox) * w / nw) ((y - oy) * h / nh) k
    else 128

/-- One pixel of PIL `convert("RGB")`: an RGB(A) pixel keeps its first
three samples, a single-sample (grayscale) pixel is replicated. -/
def pxToRGB (px : List Nat) : List Nat :=
  if 3 ≤ px.length then px.take 3 else List.replicate 3 (px.headD 0)

/-- PIL `Image.convert("RGB")`: drop alpha / expand grayscale, yielding
a 3-channel image of the same canvas size. -/
def convertRGB (im : Img) : Img :=
  ⟨im.width, im.height, 3, im.pixels.map fun row => row.map pxToRGB⟩

/-- `Image.fromarray(np.ones_like(a) * 255)`: an image of the same
shape as `a` with every sample equal to 255. -/
def whiteLike (im : Img) : Img :=
  ⟨im.width, im.height, im.channels,
    im.pixels.map fun row => row.map fun px => px.map fun _ => 255⟩

/-- Every sample of every pixel equals `v`. -/
def Img.AllValues (im : Img) (v : Nat) : Prop :=
  ∀ row ∈ im.pixels, ∀ px ∈ row, ∀ a ∈ px, a = v

/-- The inference request assembled by `leffa_predict`: the `data`
dictionary `{src_image, ref_image, mask, densepose}` (spec: Inference
Request = {Source Image, Reference Image, Region Mask, Dense Map}). -/
structure LeffaData where
  src_image : Img
  ref_image : Img
  mask : Img
  densepose : Img
  deriving DecidableEq, Repr

/-- The external collaborators consumed (not implemented) by the core:
`AutoMasker`, `DensePosePredictor.predict_iuv` / `predict_seg`, the
`LeffaTransform` batch transform, and the two `LeffaInference`
generation backends. -/
structure Backends where
  maskPredictor : Img → String → Img
  predictIUV : Img → Img
  predictSeg : Img → Img
  transform : LeffaData → LeffaData
  vtInfer : LeffaData → Img
  ptInfer : LeffaData → Img

/-- Observable events of one run: a successful image decode, a mask
predictor call, a densepose IUV / segmentation call, a generation
backend call. -/
inductive Event where
  | openImage (path : String)
  | maskCall (im : Img) (hint : String)
  | iuvCall (im : Img)
  | segCall (im : Img)
  | inferCall (task : String)
  deriving DecidableEq, Repr

/-- The ways `leffa_predict` can fail: the task-selector assertion
(spec: InvalidTaskError) and an undecodable input image (spec:
DecodeError). -/
inductive LeffaError where
  | invalidTask (t : String)
  | decodeError (path : String)
  deriving DecidableEq, Repr

/-- The body of `leffa_predict` after the task-selector assertion and
the two image decodes have succeeded (`app.py` lines 44–84): normalize
both images to 768×1024, capture the source pixel array, compute the
region mask (mask predictor with hint "upper" on the RGB-converted
source for virtual try-on; synthesized all-white array for pose
transfer), compute both densepose outputs on the pre-conversion source
array and select one by task, assemble the `data` request, transform
it and run the task's generation backend.  Returns the event trace,
the assembled request and the generated image.  `control_type` is one
of the two recognized strings when called from `leffa_predict`. -/
def leffa_core (B : Backends) (src0 ref0 : Img) (control_type : String) :
    List Event × LeffaData × Img :=
  let src_image := resize_and_center src0 768 1024
  let ref_image := resize_and_center ref0 768 1024
  let src_image_array := src_image
  let srcConv := convertRGB src_image
  let srcFinal := if control_type = "virtual_tryon" then srcConv else src_image
  let maskStep : List Event × Img :=
    if control_type = "virtual_tryon" then
      ([Event.maskCall srcConv "upper"], B.maskPredictor srcConv "upper")
    else
      ([], whiteLike src_image_array)
  let src_image_iuv := B.predictIUV src_image_array
  let src_image_seg := B.predictSeg src_image_array
  let densepose :=
    if control_type = "virtual_tryon" then src_image_seg else src_image_iuv
  let data : LeffaData := ⟨srcFinal, ref_image, maskStep.2, densepose⟩
  let gen :=
    if control_type = "virtual_tryon" then B.vtInfer (B.transform data)
    else B.ptInfer (B.transform data)
  (maskStep.1 ++
      [Event.iuvCall src_image_array, Event.segCall src_image_array,
        Event.inferCall control_type],
    data, gen)

/-- The orchestration entry point `leffa_predict` (`app.py` lines
39–84).  `fs` maps an image path to its decoded image, `none` when the
path cannot be parsed as an image (`Image.open` raises).  The task
selector is validated first (the `assert` on lines 40–41); then the
source and reference images are decoded in that order; then
`leffa_core` runs.  Returns the event trace together with either the
assembled request and generated image, or the error raised. -/
def leffa_predict (B : Backends) (fs : String → Option Img)
    (src_image_path ref_image_path control_type : String) :
    List Event × Except LeffaError (LeffaData × Img) :=
  if control_type = "virtual_tryon" ∨ control_type = "pose_transfer" then
    match fs src_image_path with
    | none => ([], .error (.decodeError src_image_path))
    | some src0 =>
      match fs ref_image_path with
      | none => ([.openImage src_image_path], .error (.decodeError ref_image_path))
      | some ref0 =>
        let r := leffa_core B src0 ref0 control_type
        (.openImage src_image_path :: .openImage ref_image_path :: r.1,
          .ok (r.2.1, r.2.2))
  else ([], .error (.invalidTask control_type))

/-- The event trace of a run. -/
def eventsOf (r : List Event × Except LeffaError (LeffaData × Img)) :
    List Event :=
  r.1

/-- The assembled inference request of a run, when it succeeded. -/
def dataOf (r : List Event × Except LeffaError (LeffaData × Img)) :
    Option LeffaData :=
  match r.2 with
  | .ok (d, _) => some d
  | .error _ => none

/-- The error of a run, when it failed. -/
def errorOf (r : List Event × Except LeffaError (LeffaData × Img)) :
    Option LeffaError :=
  match r.2 with
  | .ok _ => none
  | .error e => some e

/-- Whether an event is an invocation of an external predictor or of
the generation backend (a successful image decode is not). -/
def Event.isPredictorCall : Event → Bool
  | .openImage _ => false
  | .maskCall _ _ => true
  | .iuvCall _ => true
  | .segCall _ => true
  | .inferCall _ => true

/-- Whether an event is a mask predictor invocation. -/
def Event.isMaskCall : Event → Bool
  | .maskCall _ _ => true
  | _ => false

/-- A concrete 1×1 three-channel image, used to instantiate theorems. -/
def img1 : Img := ⟨1, 1, 3, [[[10, 20, 30]]]⟩

/-- A concrete 2×1 three-channel image, used to instantiate theorems. -/
def img2 : Img := ⟨2, 1, 3, [[[1, 2, 3], [4, 5, 6]]]⟩

/-- A concrete path resolver: `"s"` and `"r"` decode to `img1` and
`img2`, every other path is undecodable. -/
def fsc : String → Option Img := fun p =>
  if p = "s" then some img1 else if p = "r" then some img2 else none

/-- A second concrete path resolver with the same images under
different path names, used to instantiate the determinism theorem. -/
def fsc2 : String → Option Img := fun p =>
  if p = "a" then some img1 else if p = "b" then some img2 else none

/-- A concrete path resolver whose reference-image path is
undecodable. -/
def fsPartial : String → Option Img := fun p =>
  if p = "s" then some img1 else none

/-- Concrete deterministic collaborators used to instantiate
theorems. -/
def Bc : Backends :=
  ⟨fun im _ => im, fun im => im, fun im => convertRGB im, fun d => d,
    fun d => d.src_image, fun d => d.ref_image⟩

theorem mkImg_WF (w h c : Nat) (f : Nat → Nat → Nat → Nat) :
    (mkImg w h c f).WF := by
  refine ⟨by simp [mkImg], ?_⟩
  intro row hrow
  simp only [mkImg, List.mem_map] at hrow
  obtain ⟨y, -, rfl⟩ := hrow
  refine ⟨by simp [mkImg], ?_⟩
  intro px hpx
  simp only [List.mem_map] at hpx
  obtain ⟨x, -, rfl⟩ := hpx
  simp [mkImg]

theorem whiteLike_allValues (im : Img) : (whiteLike im).AllValues 255 := by
  intro row hrow px hpx a ha
  simp only [whiteLike, List.mem_map] at hrow
  obtain ⟨row0, -, rfl⟩ := hrow
  simp only [List.mem_map] at hpx
  obtain ⟨px0, -, rfl⟩ := hpx
  simp only [List.mem_map] at ha
  obtain ⟨a0, -, rfl⟩ := ha
  rfl

theorem resize_width (im : Img) (tw th : Nat) :
    (resize_and_center im tw th).width = tw := rfl

theorem resize_height (im : Img) (tw th : Nat) :
    (resize_and_center im tw th).height = th := rfl

theorem resize_channels (im : Img) (tw th : Nat) :
    (resize_and_center im tw th).channels = im.channels := rfl

theorem resize_WF (im : Img) (tw th : Nat) :
    (resize_and_center im tw th).WF := by
  unfold resize_and_center
  exact mkImg_WF ..

theorem convertRGB_width (im : Img) : (convertRGB im).width = im.width := rfl

theorem convertRGB_height (im : Img) : (convertRGB im).height = im.height := rfl

theorem whiteLike_width (im : Img) : (whiteLike im).width = im.width := rfl

theorem whiteLike_height (im : Img) : (whiteLike im).height = im.height := rfl

theorem whiteLike_channels (im : Img) :
    (whiteLike im).channels = im.channels := rfl

theorem pxToRGB_of_length_three (px : List Nat) (h : px.length = 3) :
    pxToRGB px = px := by
  unfold pxToRGB
  rw [if_pos (le_of_eq h.symm), ← h]
  exact List.take_length px

/-- On a well-formed 3-channel image the RGB conversion is the
identity. -/
theorem convertRGB_eq_self (im : Img) (hwf : im.WF) (hc : im.channels = 3) :
    convertRGB im = im := by
  obtain ⟨w, h, c, pix⟩ := im
  obtain ⟨-, hrows⟩ := hwf
  simp only at hc
  subst hc
  simp only [convertRGB, Img.mk.injEq, true_and]
  have hpix : ∀ row ∈ pix, row.map pxToRGB = row := by
    intro row hrow
    have hpx : ∀ px ∈ row, pxToRGB px = px := fun px hpx =>
      pxToRGB_of_length_three px ((hrows row hrow).2 px hpx)
    calc row.map pxToRGB = row.map id := List.map_congr_left hpx
    _ = row := List.map_id row
  calc pix.map (fun row => row.map pxToRGB) = pix.map id :=
    List.map_congr_left hpix
  _ = pix := List.map_id pix

/-- Decomposition of a successful run: with a recognized task selector
and both images decodable, `leffa_predict` records the two decodes and
then behaves as `leffa_core`. -/
theorem leffa_predict_ok (B : Backends) (fs : String → Option Img)
    (s r t : String) (src0 ref0 : Img)
    (hvalid : t = "virtual_tryon" ∨ t = "pose_transfer")
    (hs : fs s = some src0) (hr : fs r = some ref0) :
    leffa_predict B fs s r t =
      (.openImage s :: .openImage r :: (leffa_core B src0 ref0 t).1,
        .ok ((leffa_core B src0 ref0 t).2.1, (leffa_core B src0 ref0 t).2.2)) := by
  unfold leffa_predict
  rw [if_pos hvalid, hs, hr]

theorem dataOf_ok (B : Backends) (fs : String → Option Img)
    (s r t : String) (src0 ref0 : Img)
    (hvalid : t = "virtual_tryon" ∨ t = "pose_transfer")
    (hs : fs s = some src0) (hr : fs r = some ref0) :
    dataOf (leffa_predict B fs s r t) = some (leffa_core B src0 ref0 t).2.1 := by
  rw [dataOf, leffa_predict_ok B fs s r t src0 ref0 hvalid hs hr]

theorem eventsOf_ok (B : Backends) (fs : String → Option Img)
    (s r t : String) (src0 ref0 : Img)
    (hvalid : t = "virtual_tryon" ∨ t = "pose_transfer")
    (hs : fs s = some src0) (hr : fs r = some ref0) :
    eventsOf (leffa_predict B fs s r t) =
      .openImage s :: .openImage r :: (leffa_core B src0 ref0 t).1 := by
  rw [eventsOf, leffa_predict_ok B fs s r t src0 ref0 hvalid hs hr]

/-- C1: for every task selector outside {"virtual_tryon",
"pose_transfer"}, `leffa_predict` fails with the invalid-task error and
its event trace is empty: no input image is opened and no external
predictor or generation backend is invoked. -/
theorem C1_invalid_task_rejected (B : Backends) (fs : String → Option Img)
    (s r t : String) (h1 : t ≠ "virtual_tryon") (h2 : t ≠ "pose_transfer") :
    leffa_predict B fs s r t = ([], .error (.invalidTask t)) := by
  unfold leffa_predict
  rw [if_neg]
  rintro (h | h)
  · exact h1 h
  · exact h2 h

/-- Witness for C1 at the concrete selector `"invalid_task"`. -/
theorem C1_invalid_task_rejected_witness :
    "invalid_task" ≠ "virtual_tryon" ∧ "invalid_task" ≠ "pose_transfer" ∧
      leffa_predict Bc fsc "s" "r" "invalid_task" =
        ([], .error (.invalidTask "invalid_task")) :=
  ⟨by decide, by decide,
    C1_invalid_task_rejected Bc fsc "s" "r" "invalid_task" (by decide) (by decide)⟩

/-- C2: the Image Normalizer output is a well-formed pixel grid of
exactly the configured target width 768 and height 1024, for every
input image; and in every assembled request the reference image is the
normalized reference image and the source image has exactly the target
canvas size. -/
theorem C2_normalizer_output_dims (im src0 ref0 : Img) (B : Backends)
    (t : String) :
    (resize_and_center im 768 1024).width = 768 ∧
      (resize_and_center im 768 1024).height = 1024 ∧
      (resize_and_center im 768 1024).WF ∧
      (leffa_core B src0 ref0 t).2.1.ref_image
        = resize_and_center ref0 768 1024 ∧
      (leffa_core B src0 ref0 t).2.1.src_image.width = 768 ∧
      (leffa_core B src0 ref0 t).2.1.src_image.height = 1024 := by
  refine ⟨rfl, rfl, resize_WF im 768 1024, rfl, ?_, ?_⟩ <;>
    by_cases ht : t = "virtual_tryon" <;>
      simp [leffa_core, ht, convertRGB_width, convertRGB_height,
        resize_width, resize_height]

/-- C3: for every virtual-try-on request whose decoded source image has
three color channels, the region mask placed in the assembled request
is the Mask Predictor output for the fixed hint "upper" on the
normalized source image; whenever that output differs from the
synthesized all-white mask, the request mask is not the all-white
mask. -/
theorem C3_vt_mask_from_predictor (B : Backends) (fs : String → Option Img)
    (s r : String) (src0 ref0 : Img)
    (hs : fs s = some src0) (hr : fs r = some ref0)
    (hc : src0.channels = 3) :
    (dataOf (leffa_predict B fs s r "virtual_tryon")).map (fun d => d.mask)
        = some (B.maskPredictor (resize_and_center src0 768 1024) "upper") ∧
      (B.maskPredictor (resize_and_center src0 768 1024) "upper"
          ≠ whiteLike (resize_and_center src0 768 1024) →
        (dataOf (leffa_predict B fs s r "virtual_tryon")).map (fun d => d.mask)
          ≠ some (whiteLike (resize_and_center src0 768 1024))) := by
  have hconv : convertRGB (resize_and_center src0 768 1024)
      = resize_and_center src0 768 1024 :=
    convertRGB_eq_self _ (resize_WF src0 768 1024)
      ((resize_channels src0 768 1024).trans hc)
  have hmask : (dataOf (leffa_predict B fs s r "virtual_tryon")).map
        (fun d => d.mask)
      = some (B.maskPredictor (resize_and_center src0 768 1024) "upper") := by
    rw [dataOf_ok B fs s r _ src0 ref0 (Or.inl rfl) hs hr, ← hconv]
    rfl
  refine ⟨hmask, fun hne hmeq => hne ?_⟩
  exact Option.some.inj (hmask.symm.trans hmeq)

/-- Witness for C3 at concrete inputs. -/
theorem C3_vt_mask_from_predictor_witness :
    fsc "s" = some img1 ∧ fsc "r" = some img2 ∧ img1.channels = 3 ∧
      ((dataOf (leffa_predict Bc fsc "s" "r" "virtual_tryon")).map
            (fun d => d.mask)
          = some (Bc.maskPredictor (resize_and_center img1 768 1024) "upper") ∧
        (Bc.maskPredictor (resize_and_center img1 768 1024) "upper"
            ≠ whiteLike (resize_and_center img1 768 1024) →
          (dataOf (leffa_predict Bc fsc "s" "r" "virtual_tryon")).map
              (fun d => d.mask)
            ≠ some (whiteLike (resize_and_center img1 768 1024)))) :=
  ⟨rfl, rfl, rfl,
    C3_vt_mask_from_predictor Bc fsc "s" "r" img1 img2 rfl rfl rfl⟩

/-- C4: for every pose-transfer request, the region mask placed in the
assembled request is the synthesized mask over the full 768×1024
canvas with every sample equal to 255, and the Mask Predictor is never
invoked on that path. -/
theorem C4_pt_mask_all_white (B : Backends) (fs : String → Option Img)
    (s r : String) (src0 ref0 : Img)
    (hs : fs s = some src0) (hr : fs r = some ref0) :
    (dataOf (leffa_predict B fs s r "pose_transfer")).map (fun d => d.mask)
        = some (whiteLike (resize_and_center src0 768 1024)) ∧
      (whiteLike (resize_and_center src0 768 1024)).AllValues 255 ∧
      (whiteLike (resize_and_center src0 768 1024)).width = 768 ∧
      (whiteLike (resize_and_center src0 768 1024)).height = 1024 ∧
      ∀ e ∈ eventsOf (leffa_predict B fs s r "pose_transfer"),
        e.isMaskCall = false := by
  refine ⟨?_, whiteLike_allValues _, rfl, rfl, ?_⟩
  · rw [dataOf_ok B fs s r _ src0 ref0 (Or.inr rfl) hs hr]
    rfl
  · rw [eventsOf_ok B fs s r _ src0 ref0 (Or.inr rfl) hs hr]
    have hev : (leffa_core B src0 ref0 "pose_transfer").1 =
        [Event.iuvCall (resize_and_center src0 768 1024),
          Event.segCall (resize_and_center src0 768 1024),
          Event.inferCall "pose_transfer"] := rfl
    rw [hev]
    intro e he
    simp only [List.mem_cons, List.not_mem_nil, or_false] at he
    rcases he with rfl | rfl | rfl | rfl | rfl <;> rfl

/-- Witness for C4 at concrete inputs. -/
theorem C4_pt_mask_all_white_witness :
    fsc "s" = some img1 ∧ fsc "r" = some img2 ∧
      ((dataOf (leffa_predict Bc fsc "s" "r" "pose_transfer")).map
            (fun d => d.mask)
          = some (whiteLike (resize_and_center img1 768 1024)) ∧
        (whiteLike (resize_and_center img1 768 1024)).AllValues 255 ∧
        (whiteLike (resize_and_center img1 768 1024)).width = 768 ∧
        (whiteLike (resize_and_center img1 768 1024)).height = 1024 ∧
        ∀ e ∈ eventsOf (leffa_predict Bc fsc "s" "r" "pose_transfer"),
          e.isMaskCall = false) :=
  ⟨rfl, rfl, C4_pt_mask_all_white Bc fsc "s" "r" img1 img2 rfl rfl⟩

/-- C5: the dense map placed in the assembled request is selected by
task: for virtual try-on it is the segmentation output of the Dense
Surface Predictor on the normalized source image, for pose transfer it
is the surface-coordinate (IUV) output on the normalized source
image. -/
theorem C5_dense_map_selected_by_task (B : Backends)
    (fs : String → Option Img) (s r : String) (src0 ref0 : Img)
    (hs : fs s = some src0) (hr : fs r = some ref0) :
    (dataOf (leffa_predict B fs s r "virtual_tryon")).map
        (fun d => d.densepose)
        = some (B.predictSeg (resize_and_center src0 768 1024)) ∧
      (dataOf (leffa_predict B fs s r "pose_transfer")).map
        (fun d => d.densepose)
        = some (B.predictIUV (resize_and_center src0 768 1024)) := by
  constructor
  · rw [dataOf_ok B fs s r _ src0 ref0 (Or.inl rfl) hs hr]
    rfl
  · rw [dataOf_ok B fs s r _ src0 ref0 (Or.inr rfl) hs hr]
    rfl

/-- Witness for C5 at concrete inputs. -/
theorem C5_dense_map_selected_by_task_witness :
    fsc "s" = some img1 ∧ fsc "r" = some img2 ∧
      ((dataOf (leffa_predict Bc fsc "s" "r" "virtual_tryon")).map
            (fun d => d.densepose)
          = some (Bc.predictSeg (resize_and_center img1 768 1024)) ∧
        (dataOf (leffa_predict Bc fsc "s" "r" "pose_transfer")).map
            (fun d => d.densepose)
          = some (Bc.predictIUV (resize_and_center img1 768 1024))) :=
  ⟨rfl, rfl, C5_dense_map_selected_by_task Bc fsc "s" "r" img1 img2 rfl rfl⟩

/-- C6 counterexample: with a 3-channel source image, the mask
synthesized on the pose-transfer path (`np.ones_like(src_image_array)
* 255`) has three channels, not one, so it is not a single-channel
pixel grid. -/
theorem C6_counterexample :
    (dataOf (leffa_predict Bc fsc "s" "r" "pose_transfer")).map
        (fun d => d.mask.channels) = some 3 ∧
      (dataOf (leffa_predict Bc fsc "s" "r" "pose_transfer")).map
        (fun d => d.mask.channels) ≠ some 1 :=
  ⟨rfl, by decide⟩

/-- C6 (amended): for every pose-transfer request, the region mask has
the same 768×1024 canvas dimensions as the Source Image, but it is a
pixel grid with the same channel count as the decoded source image
(three channels for a color input), not a single-channel grid. -/
theorem C6_amended_mask_shape (B : Backends) (fs : String → Option Img)
    (s r : String) (src0 ref0 : Img)
    (hs : fs s = some src0) (hr : fs r = some ref0) :
    (dataOf (leffa_predict B fs s r "pose_transfer")).map
        (fun d => d.mask.width) = some 768 ∧
      (dataOf (leffa_predict B fs s r "pose_transfer")).map
        (fun d => d.mask.height) = some 1024 ∧
      (dataOf (leffa_predict B fs s r "pose_transfer")).map
        (fun d => d.mask.channels) = some src0.channels := by
  refine ⟨?_, ?_, ?_⟩ <;>
    rw [dataOf_ok B fs s r _ src0 ref0 (Or.inr rfl) hs hr] <;> rfl

/-- Witness for the amended C6 at concrete inputs. -/
theorem C6_amended_mask_shape_witness :
    fsc "s" = some img1 ∧ fsc "r" = some img2 ∧
      ((dataOf (leffa_predict Bc fsc "s" "r" "pose_transfer")).map
            (fun d => d.mask.width) = some 768 ∧
        (dataOf (leffa_predict Bc fsc "s" "r" "pose_transfer")).map
            (fun d => d.mask.height) = some 1024 ∧
        (dataOf (leffa_predict Bc fsc "s" "r" "pose_transfer")).map
            (fun d => d.mask.channels) = some img1.channels) :=
  ⟨rfl, rfl, C6_amended_mask_shape Bc fsc "s" "r" img1 img2 rfl rfl⟩

/-- C7: with a recognized task selector, an undecodable source image
path makes `leffa_predict` fail with the decode error and an empty
event trace, and an undecodable reference image path makes it fail
with the decode error after only the source decode — in both cases
before the mask predictor, the densepose predictor or the generation
backend is invoked. -/
theorem C7_decode_error_before_predictors (B : Backends)
    (fs : String → Option Img) (s r t : String)
    (hvalid : t = "virtual_tryon" ∨ t = "pose_transfer") :
    (fs s = none →
        leffa_predict B fs s r t = ([], .error (.decodeError s))) ∧
      ∀ src0, fs s = some src0 → fs r = none →
        leffa_predict B fs s r t =
          ([.openImage s], .error (.decodeError r)) := by
  constructor
  · intro hnone
    unfold leffa_predict
    rw [if_pos hvalid, hnone]
  · intro src0 hsome hnone
    unfold leffa_predict
    rw [if_pos hvalid, hsome, hnone]

/-- Witness for C7 at a concrete undecodable path. -/
theorem C7_decode_error_before_predictors_witness :
    ("pose_transfer" = "virtual_tryon" ∨ "pose_transfer" = "pose_transfer") ∧
      ((fsPartial "bad" = none →
          leffa_predict Bc fsPartial "bad" "r" "pose_transfer" =
            ([], .error (.decodeError "bad"))) ∧
        ∀ src0, fsPartial "bad" = some src0 → fsPartial "r" = none →
          leffa_predict Bc fsPartial "bad" "r" "pose_transfer" =
            ([.openImage "bad"], .error (.decodeError "r"))) :=
  ⟨Or.inr rfl,
    C7_decode_error_before_predictors Bc fsPartial "bad" "r" "pose_transfer"
      (Or.inr rfl)⟩

/-- C8: two invocations with the same decoded source image, the same
decoded reference image and the same task selector (and the same
deterministic collaborators) assemble identical inference requests:
source image, reference image, mask and dense map all coincide. -/
theorem C8_request_deterministic (B : Backends)
    (fs1 fs2 : String → Option Img) (s1 r1 s2 r2 t : String)
    (hs : fs1 s1 = fs2 s2) (hr : fs1 r1 = fs2 r2) :
    dataOf (leffa_predict B fs1 s1 r1 t)
      = dataOf (leffa_predict B fs2 s2 r2 t) := by
  unfold leffa_predict
  by_cases hvalid : t = "virtual_tryon" ∨ t = "pose_transfer"
  · rw [if_pos hvalid, if_pos hvalid, hs, hr]
    cases fs2 s2 <;> cases fs2 r2 <;> rfl
  · rw [if_neg hvalid, if_neg hvalid]

/-- Witness for C8: the same images reached through two different path
resolvers yield the same request. -/
theorem C8_request_deterministic_witness :
    fsc "s" = fsc2 "a" ∧ fsc "r" = fsc2 "b" ∧
      dataOf (leffa_predict Bc fsc "s" "r" "virtual_tryon")
        = dataOf (leffa_predict Bc fsc2 "a" "b" "virtual_tryon") :=
  ⟨rfl, rfl,
    C8_request_deterministic Bc fsc fsc2 "s" "r" "a" "b" "virtual_tryon"
      rfl rfl⟩

/-- C9: the RGB conversion is applied only on the virtual-try-on path:
on the pose-transfer path the assembled source image is the normalized
source unchanged; on the virtual-try-on path the assembled source
image and the mask predictor input are the converted image, while both
densepose predictor invocations and the dense map are computed on the
normalized source captured before the conversion. -/
theorem C9_rgb_conversion_scope (B : Backends) (fs : String → Option Img)
    (s r : String) (src0 ref0 : Img)
    (hs : fs s = some src0) (hr : fs r = some ref0) :
    (dataOf (leffa_predict B fs s r "pose_transfer")).map
        (fun d => d.src_image) = some (resize_and_center src0 768 1024) ∧
      (dataOf (leffa_predict B fs s r "virtual_tryon")).map
        (fun d => d.src_image)
        = some (convertRGB (resize_and_center src0 768 1024)) ∧
      (dataOf (leffa_predict B fs s r "virtual_tryon")).map
        (fun d => d.mask)
        = some (B.maskPredictor
            (convertRGB (resize_and_center src0 768 1024)) "upper") ∧
      Event.iuvCall (resize_and_center src0 768 1024)
          ∈ eventsOf (leffa_predict B fs s r "virtual_tryon") ∧
      Event.segCall (resize_and_center src0 768 1024)
          ∈ eventsOf (leffa_predict B fs s r "virtual_tryon") ∧
      (dataOf (leffa_predict B fs s r "virtual_tryon")).map
        (fun d => d.densepose)
        = some (B.predictSeg (resize_and_center src0 768 1024)) := by
  have hev : (leffa_core B src0 ref0 "virtual_tryon").1 =
      [Event.maskCall (convertRGB (resize_and_center src0 768 1024)) "upper",
        Event.iuvCall (resize_and_center src0 768 1024),
        Event.segCall (resize_and_center src0 768 1024),
        Event.inferCall "virtual_tryon"] := rfl
  refine ⟨?_, ?_, ?_, ?_, ?_, ?_⟩
  · rw [dataOf_ok B fs s r _ src0 ref0 (Or.inr rfl) hs hr]
    rfl
  · rw [dataOf_ok B fs s r _ src0 ref0 (Or.inl rfl) hs hr]
    rfl
  · rw [dataOf_ok B fs s r _ src0 ref0 (Or.inl rfl) hs hr]
    rfl
  · rw [eventsOf_ok B fs s r _ src0 ref0 (Or.inl rfl) hs hr, hev]
    simp
  · rw [eventsOf_ok B fs s r _ src0 ref0 (Or.inl rfl) hs hr, hev]
    simp
  · rw [dataOf_ok B fs s r _ src0 ref0 (Or.inl rfl) hs hr]
    rfl

/-- Witness for C9 at concrete inputs. -/
theorem C9_rgb_conversion_scope_witness :
    fsc "s" = some img1 ∧ fsc "r" = some img2 ∧
      ((dataOf (leffa_predict Bc fsc "s" "r" "pose_transfer")).map
            (fun d => d.src_image)
          = some (resize_and_center img1 768 1024) ∧
        (dataOf (leffa_predict Bc fsc "s" "r" "virtual_tryon")).map
            (fun d => d.src_image)
          = some (convertRGB (resize_and_center img1 768 1024)) ∧
        (dataOf (leffa_predict Bc fsc "s" "r" "virtual_tryon")).map
            (fun d => d.mask)
          = some (Bc.maskPredictor
              (convertRGB (resize_and_center img1 768 1024)) "upper") ∧
        Event.iuvCall (resize_and_center img1 768 1024)
            ∈ eventsOf (leffa_predict Bc fsc "s" "r" "virtual_tryon") ∧
        Event.segCall (resize_and_center img1 768 1024)
            ∈ eventsOf (leffa_predict Bc fsc "s" "r" "virtual_tryon") ∧
        (dataOf (leffa_predict Bc fsc "s" "r" "virtual_tryon")).map
            (fun d => d.densepose)
          = some (Bc.predictSeg (resize_and_center img1 768 1024))) :=
  ⟨rfl, rfl, C9_rgb_conversion_scope Bc fsc "s" "r" img1 img2 rfl rfl⟩

/-- C10: for every request with a recognized task selector and
decodable images, both densepose outputs are computed on the
normalized source image regardless of the selected task, and only the
task's variant is placed in the assembled request. -/
theorem C10_both_densepose_variants_computed (B : Backends)
    (fs : String → Option Img) (s r t : String) (src0 ref0 : Img)
    (hvalid : t = "virtual_tryon" ∨ t = "pose_transfer")
    (hs : fs s = some src0) (hr : fs r = some ref0) :
    Event.iuvCall (resize_and_center src0 768 1024)
        ∈ eventsOf (leffa_predict B fs s r t) ∧
      Event.segCall (resize_and_center src0 768 1024)
        ∈ eventsOf (leffa_predict B fs s r t) ∧
      (dataOf (leffa_predict B fs s r t)).map (fun d => d.densepose)
        = some (if t = "virtual_tryon"
            then B.predictSeg (resize_and_center src0 768 1024)
            else B.predictIUV (resize_and_center src0 768 1024)) := by
  rcases hvalid with rfl | rfl
  · refine ⟨?_, ?_, ?_⟩
    · rw [eventsOf_ok B fs s r _ src0 ref0 (Or.inl rfl) hs hr]
      simp [leffa_core]
    · rw [eventsOf_ok B fs s r _ src0 ref0 (Or.inl rfl) hs hr]
      simp [leffa_core]
    · rw [dataOf_ok B fs s r _ src0 ref0 (Or.inl rfl) hs hr]
      rfl
  · refine ⟨?_, ?_, ?_⟩
    · rw [eventsOf_ok B fs s r _ src0 ref0 (Or.inr rfl) hs hr]
      simp [leffa_core]
    · rw [eventsOf_ok B fs s r _ src0 ref0 (Or.inr rfl) hs hr]
      simp [leffa_core]
    · rw [dataOf_ok B fs s r _ src0 ref0 (Or.inr rfl) hs hr]
      rfl

/-- Witness for C10 at concrete inputs. -/
theorem C10_both_densepose_variants_computed_witness :
    ("pose_transfer" = "virtual_tryon" ∨ "pose_transfer" = "pose_transfer") ∧
      fsc "s" = some img1 ∧ fsc "r" = some img2 ∧
      (Event.iuvCall (resize_and_center img1 768 1024)
          ∈ eventsOf (leffa_predict Bc fsc "s" "r" "pose_transfer") ∧
        Event.segCall (resize_and_center img1 768 1024)
          ∈ eventsOf (leffa_predict Bc fsc "s" "r" "pose_transfer") ∧
        (dataOf (leffa_predict Bc fsc "s" "r" "pose_transfer")).map
            (fun d => d.densepose)
          = some (if "pose_transfer" = "virtual_tryon"
              then Bc.predictSeg (resize_and_center img1 768 1024)
              else Bc.predictIUV (resize_and_center img1 768 1024))) :=
  ⟨Or.inr rfl, rfl, rfl,
    C10_both_densepose_variants_computed Bc fsc "s" "r" "pose_transfer"
      img1 img2 (Or.inr rfl) rfl rfl⟩

end Leffa
